import Mathlib

/-!
# Verification of the blender-batch-submitter core against its specification

This file gives a shallow embedding, in Lean 4, of the algorithmic core of the
batch-submitter repository:

* the UI frame/task estimate (`desktop_app.py`, `RenderSettingsTab._update_calculated`),
* relative output-path resolution (`blend_parser.py`, `resolve_output_path`),
* the job-block planner (`desktop_app.py`, `_create_block_for_layer`,
  `_create_single_block_for_layers`, `_submit_single_scene_mode`,
  `_submit_all_scenes_mode`),
* per-scene metadata extraction (`blend_parser.py`, `parse_scene`, `parse_blend`),
* the batch extraction orchestrator (`desktop_app.py`, `InspectorThread.run`),
* the bounded in-memory log list (`backend.py`, `Backend.add_log`,
  `Backend._load_persistent_logs`).

Python integers are modelled as `Int` (Python ints are unbounded; the one float
operation that occurs — `math.ceil(a / b)` on spinbox-bounded values — is
modelled as exact rational ceiling, which agrees with CPython doubles on the UI
ranges `0 ≤ frames ≤ 999999`, `1 ≤ frames_per_task ≤ 9999` that reach it).
Fallible field accessors of the binary structure reader are modelled as
`Except String` values; Qt signal emissions are modelled as an event trace.
-/

namespace RenderSettings

/-- Embedding of the single-scene branch of
`RenderSettingsTab._update_calculated` (desktop_app.py):
`total_frames = max(0, (end - start) // step + 1) if step > 0 else 0`.
Python `//` on ints is floor division, hence `Int.fdiv`. -/
def total_frames_calc (start_v end_v step : Int) : Int :=
  if 0 < step then max 0 ((end_v - start_v).fdiv step + 1) else 0

/-- Embedding of
`total_tasks = math.ceil(total_frames / fpt) if fpt > 0 else 0`
(desktop_app.py, `_update_calculated`); `math.ceil` of the (exact) quotient. -/
def total_tasks_calc (total_frames fpt : Int) : Int :=
  if 0 < fpt then ⌈(total_frames : ℚ) / (fpt : ℚ)⌉ else 0

/-- The pair shown in the UI by `_update_calculated` (single-scene branch). -/
def update_calculated (start_v end_v step fpt : Int) : Int × Int :=
  (total_frames_calc start_v end_v step,
   total_tasks_calc (total_frames_calc start_v end_v step) fpt)

/-- Ceiling of an exact integer quotient as floor-division arithmetic. -/
theorem ceil_div_eq_fdiv (a b : Int) (hb : 0 < b) :
    ⌈(a : ℚ) / (b : ℚ)⌉ = (a + b - 1).fdiv b := by
  rw [Int.fdiv_eq_ediv _ (le_of_lt hb)]
  have hb0 : (0:ℚ) < (b:ℚ) := by exact_mod_cast hb
  rw [Int.ceil_eq_iff]
  have h := Int.emod_add_ediv (a + b - 1) b
  have h1 : 0 ≤ (a + b - 1) % b := Int.emod_nonneg _ (by omega)
  have h2 : (a + b - 1) % b < b := Int.emod_lt_of_pos _ hb
  have e1 : ((a + b - 1) / b - 1) * b = b * ((a + b - 1) / b) - b := by ring
  have e2 : (a + b - 1) / b * b = b * ((a + b - 1) / b) := by ring
  have hlt : ((a + b - 1) / b - 1) * b < a := by linarith
  have hle : a ≤ (a + b - 1) / b * b := by linarith
  constructor
  · rw [lt_div_iff₀ hb0]
    exact_mod_cast hlt
  · rw [div_le_iff₀ hb0]
    exact_mod_cast hle

/-- General float-free form of the UI estimate. -/
theorem update_calculated_eq (s e st fpt : Int)
    (hst : 1 ≤ st) (hfpt : 1 ≤ fpt) :
    update_calculated s e st fpt =
      (max 0 ((e - s).fdiv st + 1),
       (max 0 ((e - s).fdiv st + 1) + fpt - 1).fdiv fpt) := by
  unfold update_calculated total_frames_calc total_tasks_calc
  rw [if_pos (by omega : (0:Int) < st), if_pos (by omega : (0:Int) < fpt)]
  rw [ceil_div_eq_fdiv _ _ (by omega)]

/-- C1: for `step ≥ 1` and `frames_per_task ≥ 1`, the UI-facing estimate of
`_update_calculated` equals `total_frames = max 0 ((end − start) // step + 1)`
and `total_tasks = ⌈total_frames / frames_per_task⌉` (written float-free as
`(total_frames + fpt − 1) // fpt`); in particular
`start=1, end=250, step=1, fpt=3` gives `(250, 84)`. -/
theorem c1_update_calculated_formula (s e st fpt : Int)
    (hst : 1 ≤ st) (hfpt : 1 ≤ fpt) :
    update_calculated s e st fpt =
      (max 0 ((e - s).fdiv st + 1),
       (max 0 ((e - s).fdiv st + 1) + fpt - 1).fdiv fpt) ∧
    update_calculated 1 250 1 3 = (250, 84) := by
  refine ⟨update_calculated_eq s e st fpt hst hfpt, ?_⟩
  rw [update_calculated_eq 1 250 1 3 (by omega) (by omega)]
  decide

/-- Witness for C1 at `start=1, end=250, step=1, frames_per_task=3`. -/
theorem c1_witness :
    update_calculated 1 250 1 3 = (250, 84) :=
  (c1_update_calculated_formula 1 250 1 3 (by decide) (by decide)).2

end RenderSettings

/-- `str.startswith(pre)` on Python strings, over the character list (the
kernel-reducible view of Lean strings). -/
def strHasPrefix (s pre : String) : Bool := pre.data.isPrefixOf s.data

/-- `str.endswith(suf)` over the character list. -/
def strHasSuffix (s suf : String) : Bool := suf.data.reverse.isPrefixOf s.data.reverse

/-- Python slicing `s[n:]` over the character list. -/
def strDrop (s : String) (n : Nat) : String := ⟨s.data.drop n⟩

namespace BlendParser

/-- POSIX path joining as performed by `blend_dir / relative_path` with
`pathlib.Path` (blend_parser.py, `resolve_output_path`): a relative component
is appended with a single separator; a component that is itself absolute
replaces the base (pathlib drops the base then). Dot-segment/duplicate-slash
normalisation never arises for the inputs of `resolve_output_path` and is not
modelled. -/
def pathJoin (base rel : String) : String :=
  if strHasPrefix rel "/" then rel
  else if strHasSuffix base "/" then base ++ rel
  else base ++ "/" ++ rel

/-- Embedding of `resolve_output_path(path_str, blend_dir)` (blend_parser.py):
empty input is returned as is; a `//`-prefixed path is stripped of the marker
and joined onto the blend file's directory; anything else is unchanged. -/
def resolve_output_path (path_str : String) (blend_dir : String) : String :=
  if path_str = "" then path_str
  else if strHasPrefix path_str "//" then pathJoin blend_dir (strDrop path_str 2)
  else path_str

/-- C2: a `//`-prefixed path resolves to the base directory joined with the
path stripped of its marker; any path not starting with `//` (the empty string
included) is returned unchanged; concretely,
`resolve_output_path "//render/out_####" "/proj/shot01"` is
`"/proj/shot01/render/out_####"`. -/
theorem c2_resolve_output_path_spec :
    (∀ p d : String, strHasPrefix p "//" = true →
      resolve_output_path p d = pathJoin d (strDrop p 2)) ∧
    (∀ p d : String, strHasPrefix p "//" = false →
      resolve_output_path p d = p) ∧
    resolve_output_path "//render/out_####" "/proj/shot01" =
      "/proj/shot01/render/out_####" ∧
    resolve_output_path "" "/proj/shot01" = "" := by
  refine ⟨?_, ?_, by decide, by decide⟩
  · intro p d hp
    have hne : p ≠ "" := by
      intro h
      rw [h] at hp
      exact absurd hp (by decide)
    simp only [resolve_output_path, if_neg hne, hp, if_pos]
  · intro p d hp
    by_cases hne : p = ""
    · simp only [resolve_output_path, if_pos hne]
    · simp only [resolve_output_path, if_neg hne, hp]
      simp

/-- Witness for C2: the marked and unmarked concrete examples. -/
theorem c2_witness :
    resolve_output_path "//render/out_####" "/proj/shot01" =
      pathJoin "/proj/shot01" (strDrop "//render/out_####" 2) ∧
    resolve_output_path "frames/out" "/proj/shot01" = "frames/out" :=
  ⟨c2_resolve_output_path_spec.1 "//render/out_####" "/proj/shot01" (by decide),
   c2_resolve_output_path_spec.2.1 "frames/out" "/proj/shot01" (by decide)⟩

end BlendParser

namespace BlendParser

/-- `IMAGE_FORMAT_MAP` (blend_parser.py): Blender image-format enum to label. -/
def IMAGE_FORMAT_MAP : List (Int × String) :=
  [(1, "IRIS"), (2, "JPEG"), (3, "MOVIE"), (4, "IRIZ"), (7, "RAWTGA"),
   (14, "PNG"), (15, "BMP"), (17, "TIFF"), (18, "OPEN_EXR"), (19, "FFMPEG"),
   (20, "FRAMESERVER"), (21, "CINEON"), (22, "OPEN_EXR_MULTILAYER"),
   (23, "DPX"), (24, "DDS"), (25, "JP2"), (26, "WEBP"), (28, "AVI_JPEG")]

/-- `IMAGE_FORMAT_MAP.get(format_int, f"UNKNOWN_{format_int}")`
(blend_parser.py, `parse_scene`). -/
def image_format_label (i : Int) : String :=
  match IMAGE_FORMAT_MAP.lookup i with
  | some s => s
  | none => "UNKNOWN_" ++ toString i

/-- The raw accessor results `parse_scene` reads from one scene block.
`get_name` and `get_view_layers` carry their own internal `try/except` in the
source and are total, so they appear as plain values; every other
`scene_block.get(...)` call can raise (blender_asset_tracer decode errors),
modelled as `Except String` (the error string is `str(e)`). Byte decoding
(`.decode("utf-8", errors="ignore").rstrip("\x00")`) is folded into the
string values. A `.get` default for a merely *missing* field is an `ok`
value, not an error. -/
structure SceneBlockAcc where
  name : String
  sfra : Except String Int
  efra : Except String Int
  frame_step : Except String Int
  pic : Except String String
  view_layers : List String
  engine : Except String String
  use_nodes : Except String Int
  xsch : Except String Int
  ysch : Except String Int
  imtype : Except String Int

/-- One extracted scene record: a Python dict whose keys may be absent,
modelled with `Option` fields (`none` = key absent from the dict). -/
structure SceneData where
  name : Option String := none
  frame_start : Option Int := none
  frame_end : Option Int := none
  frame_step : Option Int := none
  output_path : Option String := none
  view_layers : Option (List String) := none
  render_engine : Option String := none
  use_nodes : Option Bool := none
  resolution_x : Option Int := none
  resolution_y : Option Int := none
  output_format : Option String := none
  parse_error : Option String := none
deriving DecidableEq

end BlendParser

/-- Python `str.strip()` over the character list. -/
def strStrip (s : String) : String :=
  ⟨((s.data.dropWhile Char.isWhitespace).reverse.dropWhile Char.isWhitespace).reverse⟩

namespace Planner

/-- One entry of a scene's `view_layers` list as read by
`_submit_all_scenes_mode` (desktop_app.py): `layer_data.get("name", "")` and
`layer_data.get("use", True)`. -/
structure LayerData where
  name : String
  use : Bool
deriving DecidableEq

/-- The per-scene dictionary fields read by `_submit_all_scenes_mode`
(desktop_app.py): `scene.get("name"/"view_layers"/"output_path"/
"output_format"/"frame_start"/"frame_end"/"frame_step", …)`. -/
structure SceneDict where
  name : String
  view_layers : List LayerData
  output_path : String
  output_format : String
  frame_start : Int
  frame_end : Int
  frame_step : Int
deriving DecidableEq

/-- One planned farm block. `layers` records the layer-name argument(s) the
block creator received (`[layer_name]` in the per-layer creator, the full
`layer_names` list in the single-block creator); the numeric tuple mirrors
`block.setNumeric(frame_start, frame_end, frames_per_task, frame_step)`.
The command string and working directory built alongside are pure
formatting of the same inputs and are not modelled (no claim concerns them). -/
structure Block where
  name : String
  layers : List String
  frame_start : Int
  frame_end : Int
  frames_per_task : Int
  frame_step : Int
deriving DecidableEq

/-- Embedding of `_create_block_for_layer` (desktop_app.py):
`block_name = scene_name or "render"`, then
`if layer_name: block_name = f"{block_name}_{layer_name}"`. -/
def _create_block_for_layer (scene_name layer_name : String)
    (fs fe fpt st : Int) : Block :=
  let base := if scene_name = "" then "render" else scene_name
  { name := if layer_name = "" then base else base ++ "_" ++ layer_name
    layers := [layer_name]
    frame_start := fs, frame_end := fe, frames_per_task := fpt, frame_step := st }

/-- Embedding of `_create_single_block_for_layers` (desktop_app.py):
one layer gives `f"{scene_name}_{layer_names[0]}" if scene_name else
layer_names[0]`, otherwise `f"{scene_name}_AllLayers" if scene_name else
"AllLayers"`. -/
def _create_single_block_for_layers (scene_name : String)
    (layer_names : List String) (fs fe fpt st : Int) : Block :=
  { name :=
      if layer_names.length = 1 then
        (if scene_name = "" then layer_names.headD ""
         else scene_name ++ "_" ++ layer_names.headD "")
      else
        (if scene_name = "" then "AllLayers" else scene_name ++ "_AllLayers")
    layers := layer_names
    frame_start := fs, frame_end := fe, frames_per_task := fpt, frame_step := st }

/-- The effective-layer computation inlined in `_submit_all_scenes_mode`
(desktop_app.py): keep `layer_data.get("name","").strip()` for every entry
with `use` true and a non-empty stripped name; when nothing remains, fall
back to `[""]` (render the active layer). -/
def effective_layer_names (view_layers : List LayerData) : List String :=
  let names := (view_layers.filter
      (fun l => l.use && decide (strStrip l.name ≠ ""))).map
      (fun l => strStrip l.name)
  if names = [] then [""] else names

/-- The per-scene body of the `for scene in file_data.scenes` loop of
`_submit_all_scenes_mode` (desktop_app.py): parallel mode appends one
per-layer block for each effective layer, sequential mode appends a single
block for all of them, both chunked with the scene's frame range/step and the
file-wide `frames_per_task`. -/
def plan_scene (fpt : Int) (parallel_mode : Bool) (scene : SceneDict) :
    List Block :=
  let layer_names := effective_layer_names scene.view_layers
  if parallel_mode then
    layer_names.map (fun ln =>
      _create_block_for_layer scene.name ln
        scene.frame_start scene.frame_end fpt scene.frame_step)
  else
    [_create_single_block_for_layers scene.name layer_names
      scene.frame_start scene.frame_end fpt scene.frame_step]

/-- Embedding of `_submit_all_scenes_mode` (desktop_app.py): the blocks of
every scene, appended in scene order. -/
def _submit_all_scenes_mode (scenes : List SceneDict) (fpt : Int)
    (parallel_mode : Bool) : List Block :=
  scenes.flatMap (plan_scene fpt parallel_mode)

/-- Embedding of `_submit_single_scene_mode` (desktop_app.py): the selected
layer-name strings are stripped and emptied-out names dropped, with the `[""]`
active-layer fallback applied both to an empty selection and to an
all-filtered-out selection; then one block per layer (parallel) or a single
block (sequential). -/
def _submit_single_scene_mode (selected_scene : String)
    (selected_layers : List String) (fs fe fpt st : Int)
    (parallel_mode : Bool) : List Block :=
  let layers := if selected_layers = [] then [""] else selected_layers
  let layer_names :=
    (layers.map strStrip).filter (fun n => decide (n ≠ ""))
  let layer_names := if layer_names = [] then [""] else layer_names
  if parallel_mode then
    layer_names.map (fun ln => _create_block_for_layer selected_scene ln fs fe fpt st)
  else
    [_create_single_block_for_layers selected_scene layer_names fs fe fpt st]

/-- The effective layer list is never empty (the `[""]` fallback). -/
theorem effective_layer_names_ne_nil (vl : List LayerData) :
    effective_layer_names vl ≠ [] := by
  simp only [effective_layer_names]
  split
  · simp
  · assumption

/-- Unfolding equation for the parallel branch of `plan_scene`. -/
theorem plan_scene_true (fpt : Int) (scene : SceneDict) :
    plan_scene fpt true scene
      = (effective_layer_names scene.view_layers).map (fun ln =>
          _create_block_for_layer scene.name ln
            scene.frame_start scene.frame_end fpt scene.frame_step) := rfl

/-- Unfolding equation for the sequential branch of `plan_scene`. -/
theorem plan_scene_false (fpt : Int) (scene : SceneDict) :
    plan_scene fpt false scene
      = [_create_single_block_for_layers scene.name
          (effective_layer_names scene.view_layers)
          scene.frame_start scene.frame_end fpt scene.frame_step] := rfl

/-- C3: with `parallel_mode = True` and at least one enabled, non-empty-named
layer, the planner emits exactly one block per such layer, in layer order,
and every one of those blocks carries the scene's
`(frame_start, frame_end, frames_per_task, frame_step)`. -/
theorem c3_parallel_one_block_per_layer (scene : SceneDict) (fpt : Int)
    (hn : scene.view_layers.filter
        (fun l => l.use && decide (strStrip l.name ≠ "")) ≠ []) :
    (plan_scene fpt true scene).length
        = (scene.view_layers.filter
            (fun l => l.use && decide (strStrip l.name ≠ ""))).length ∧
    (plan_scene fpt true scene).map Block.layers
        = (scene.view_layers.filter
            (fun l => l.use && decide (strStrip l.name ≠ ""))).map
            (fun l => [strStrip l.name]) ∧
    ∀ b ∈ plan_scene fpt true scene,
      b.frame_start = scene.frame_start ∧ b.frame_end = scene.frame_end ∧
      b.frames_per_task = fpt ∧ b.frame_step = scene.frame_step := by
  have hnames : effective_layer_names scene.view_layers
      = (scene.view_layers.filter
          (fun l => l.use && decide (strStrip l.name ≠ ""))).map
          (fun l => strStrip l.name) := by
    unfold effective_layer_names
    rw [if_neg (by simpa using hn)]
  refine ⟨?_, ?_, ?_⟩
  · simp [plan_scene_true, hnames]
  · simp only [plan_scene_true, hnames, List.map_map]
    rfl
  · intro b hb
    simp only [plan_scene_true, List.mem_map] at hb
    obtain ⟨ln, _, rfl⟩ := hb
    simp [_create_block_for_layer]

/-- Concrete scene used to instantiate C3: two enabled layers. -/
def sceneTwoLayers : SceneDict :=
  { name := "Scene", view_layers := [⟨"A", true⟩, ⟨"B", true⟩]
    output_path := "", output_format := ""
    frame_start := 1, frame_end := 10, frame_step := 1 }

/-- Witness for C3: a scene with two enabled layers yields exactly two blocks
with identical frame range. -/
theorem c3_witness :
    (plan_scene 3 true sceneTwoLayers).length = 2 ∧
    ∀ b ∈ plan_scene 3 true sceneTwoLayers,
      b.frame_start = 1 ∧ b.frame_end = 10 := by
  have h := c3_parallel_one_block_per_layer sceneTwoLayers 3 (by decide)
  refine ⟨by rw [h.1]; decide, ?_⟩
  intro b hb
  have := h.2.2 b hb
  exact ⟨this.1, this.2.1⟩

/-- C4: with `parallel_mode = False` the planner emits exactly one block, its
layer list is the effective layer list (every non-empty name in it comes from
an enabled layer, so disabled layers are excluded), the `[""]` active-layer
fallback fires when no enabled layer remains, and in no mode does a scene
yield zero blocks. -/
theorem c4_single_block_excludes_disabled (scene : SceneDict) (fpt : Int) :
    (plan_scene fpt false scene).length = 1 ∧
    (∀ b ∈ plan_scene fpt false scene,
      b.layers = effective_layer_names scene.view_layers ∧
      (∀ n ∈ b.layers, n ≠ "" →
        ∃ l ∈ scene.view_layers, l.use = true ∧ strStrip l.name = n) ∧
      (scene.view_layers.filter
          (fun l => l.use && decide (strStrip l.name ≠ "")) = [] →
        b.layers = [""])) ∧
    (∀ par : Bool, plan_scene fpt par scene ≠ []) := by
  refine ⟨rfl, ?_, ?_⟩
  · intro b hb
    simp only [plan_scene_false, List.mem_singleton] at hb
    subst hb
    refine ⟨rfl, ?_, ?_⟩
    · intro n hn hne
      simp only [_create_single_block_for_layers] at hn
      unfold effective_layer_names at hn
      by_cases hf : scene.view_layers.filter
          (fun l => l.use && decide (strStrip l.name ≠ "")) = []
      · rw [if_pos (by simpa using hf)] at hn
        simp at hn
        exact absurd hn hne
      · rw [if_neg (by simpa using hf)] at hn
        simp only [List.mem_map, List.mem_filter] at hn
        obtain ⟨l, ⟨hl, hcond⟩, rfl⟩ := hn
        simp only [Bool.and_eq_true, decide_eq_true_eq] at hcond
        exact ⟨l, hl, hcond.1, rfl⟩
    · intro hf
      simp only [_create_single_block_for_layers]
      unfold effective_layer_names
      rw [if_pos (by simpa using hf)]
  · intro par
    cases par
    · simp [plan_scene_false]
    · simp [plan_scene_true, effective_layer_names_ne_nil]

/-- Concrete scene used to instantiate C4: two layers, one disabled. -/
def sceneOneDisabled : SceneDict :=
  { name := "Scene", view_layers := [⟨"A", true⟩, ⟨"B", false⟩]
    output_path := "", output_format := ""
    frame_start := 1, frame_end := 10, frame_step := 1 }

/-- Witness for C4: a scene with two layers, one disabled, yields one block
containing only the enabled layer. -/
theorem c4_witness :
    (plan_scene 3 false sceneOneDisabled).length = 1 ∧
    ∀ b ∈ plan_scene 3 false sceneOneDisabled, b.layers = ["A"] := by
  have h := c4_single_block_excludes_disabled sceneOneDisabled 3
  refine ⟨h.1, ?_⟩
  intro b hb
  rw [(h.2.1 b hb).1]
  decide

/-- Concrete scene refuting C5 as stated: empty scene name, two enabled
layers, single-block layout. -/
def c5Scene : SceneDict :=
  { name := "", view_layers := [⟨"A", true⟩, ⟨"B", true⟩]
    output_path := "", output_format := ""
    frame_start := 1, frame_end := 10, frame_step := 1 }

/-- C5 counterexample: in the single-block layout an empty scene name does
NOT fall back to the generic `"render"` label — bundling two enabled layers
of a scene whose name is empty yields the bare label `"AllLayers"`. -/
theorem c5_counterexample :
    (plan_scene 3 false c5Scene).map Block.name = ["AllLayers"] ∧
    ("AllLayers" : String) ≠ "render" := by
  constructor
  · decide
  · decide

/-- C5 (amended): per-layer (parallel) blocks are named by the scene name —
falling back to `"render"` when it is empty — optionally suffixed with the
layer name; the single bundled block is named `<scene>_<layer>` for exactly
one effective layer and `<scene>_AllLayers` otherwise, an empty scene name
yielding the bare layer name resp. the bare `"AllLayers"` label (never
`"render"`). -/
theorem c5_amended_block_naming (scene : SceneDict) (fpt : Int) :
    (∀ b ∈ plan_scene fpt true scene,
      ∃ n ∈ effective_layer_names scene.view_layers,
        b.name =
          (if n = "" then (if scene.name = "" then "render" else scene.name)
           else (if scene.name = "" then "render" else scene.name) ++ "_" ++ n)) ∧
    (∀ b ∈ plan_scene fpt false scene,
      b.name =
        match effective_layer_names scene.view_layers with
        | [n] => if scene.name = "" then n else scene.name ++ "_" ++ n
        | _ => if scene.name = "" then "AllLayers"
               else scene.name ++ "_AllLayers") := by
  constructor
  · intro b hb
    simp only [plan_scene_true, List.mem_map] at hb
    obtain ⟨ln, hln, rfl⟩ := hb
    exact ⟨ln, hln, rfl⟩
  · intro b hb
    simp only [plan_scene_false, List.mem_singleton] at hb
    subst hb
    simp only [_create_single_block_for_layers]
    cases h : effective_layer_names scene.view_layers with
    | nil => exact absurd h (effective_layer_names_ne_nil _)
    | cons n rest =>
      cases rest with
      | nil => simp
      | cons m rest2 => simp

/-- Witness for C5 (amended): at the concrete empty-named scene the bundled
block is named `"AllLayers"`. -/
theorem c5_witness :
    (plan_scene 3 false c5Scene).map Block.name = ["AllLayers"] := by
  have h := (c5_amended_block_naming c5Scene 3).2
  obtain ⟨b, hb⟩ : ∃ b, plan_scene 3 false c5Scene = [b] := ⟨_, rfl⟩
  rw [hb, List.map_singleton]
  rw [h b (by rw [hb]; exact List.mem_singleton.mpr rfl)]
  decide

end Planner

namespace BlendParser

/-- Embedding of `parse_scene(scene_block, blend_dir)` (blend_parser.py).
The source wraps *all* field extraction in a single `try`; an exception at
any `.get` jumps to the `except`, which records `str(e)` under
`parse_error` — fields already assigned stay, the failing field and all
later ones are never assigned. The assignment order matches the source:
name, frame_start, frame_end, frame_step, output_path, view_layers,
render_engine, use_nodes, resolution_x, resolution_y, output_format. -/
def parse_scene (b : SceneBlockAcc) (blend_dir : String) : SceneData :=
  let s0 : SceneData := { name := some b.name }
  match b.sfra with
  | .error e => { s0 with parse_error := some e }
  | .ok fs =>
    let s1 := { s0 with frame_start := some fs }
    match b.efra with
    | .error e => { s1 with parse_error := some e }
    | .ok fe =>
      let s2 := { s1 with frame_end := some fe }
      match b.frame_step with
      | .error e => { s2 with parse_error := some e }
      | .ok st =>
        let s3 := { s2 with frame_step := some st }
        match b.pic with
        | .error e => { s3 with parse_error := some e }
        | .ok pic =>
          let s4 := { s3 with
            output_path := some (resolve_output_path pic blend_dir)
            view_layers := some b.view_layers }
          match b.engine with
          | .error e => { s4 with parse_error := some e }
          | .ok eng =>
            let engLabel := if eng = "" then "BLENDER_EEVEE" else eng
            let s5 := { s4 with render_engine := some engLabel }
            match b.use_nodes with
            | .error e => { s5 with parse_error := some e }
            | .ok un =>
              let s6 := { s5 with use_nodes := some (decide (un ≠ 0)) }
              match b.xsch with
              | .error e => { s6 with parse_error := some e }
              | .ok rx =>
                let s7 := { s6 with resolution_x := some rx }
                match b.ysch with
                | .error e => { s7 with parse_error := some e }
                | .ok ry =>
                  let s8 := { s7 with resolution_y := some ry }
                  match b.imtype with
                  | .error e => { s8 with parse_error := some e }
                  | .ok it =>
                    { s8 with output_format := some (image_format_label it) }

/-- `true` when the accessor did not raise. -/
def accOk {α : Type} : Except String α → Bool
  | .ok _ => true
  | .error _ => false

/-- All fallible accessors of a scene block succeed. -/
def accessorsOk (b : SceneBlockAcc) : Bool :=
  accOk b.sfra && accOk b.efra && accOk b.frame_step && accOk b.pic &&
  accOk b.engine && accOk b.use_nodes && accOk b.xsch && accOk b.ysch &&
  accOk b.imtype

/-- Concrete scene block refuting C6 as stated: the very first fallible read
(`frame_start`) raises while every later accessor would succeed. -/
def c6Block : SceneBlockAcc :=
  { name := "Scene", sfra := .error "struct field sfra not found"
    efra := .ok 250, frame_step := .ok 1, pic := .ok ""
    view_layers := ["View Layer"], engine := .ok "CYCLES"
    use_nodes := .ok 0, xsch := .ok 1920, ysch := .ok 1080, imtype := .ok 14 }

/-- C6 counterexample: when extracting `frame_start` raises, the exception is
recorded in `parse_error`, but `frame_end` (and every later field) is NOT
populated with its documented default (250) — the key is simply absent. -/
theorem c6_counterexample :
    (parse_scene c6Block "/proj").parse_error
        = some "struct field sfra not found" ∧
    (parse_scene c6Block "/proj").frame_end = none ∧
    (parse_scene c6Block "/proj").frame_end ≠ some 250 := by
  refine ⟨rfl, rfl, by decide⟩

/-- `parse_scene` is total, keeps the scene name, records `parse_error`
exactly when some accessor raised, and populates every field on full
success. -/
theorem parse_scene_basic (b : SceneBlockAcc) (d : String) :
    (parse_scene b d).name = some b.name ∧
    ((parse_scene b d).parse_error = none ↔ accessorsOk b = true) ∧
    ((parse_scene b d).parse_error = none →
      (parse_scene b d).frame_start.isSome ∧
      (parse_scene b d).frame_end.isSome ∧
      (parse_scene b d).frame_step.isSome ∧
      (parse_scene b d).output_path.isSome ∧
      (parse_scene b d).view_layers.isSome ∧
      (parse_scene b d).render_engine.isSome ∧
      (parse_scene b d).use_nodes.isSome ∧
      (parse_scene b d).resolution_x.isSome ∧
      (parse_scene b d).resolution_y.isSome ∧
      (parse_scene b d).output_format.isSome) ∧
    ((parse_scene b d).parse_error.isSome →
      (parse_scene b d).output_format = none) := by
  obtain ⟨n, sf, ef, st, pic, vl, eng, un, rx, ry, it⟩ := b
  cases sf <;> cases ef <;> cases st <;> cases pic <;> cases eng <;>
    cases un <;> cases rx <;> cases ry <;> cases it <;>
      simp [parse_scene, accessorsOk, accOk]

/-- C6 (amended): `parse_scene` is total and never discards a scene — the
record always carries the scene name; `parse_error` is absent exactly when
every fallible accessor succeeded; on full success every field is populated;
and when an accessor raises, the returned record is characterised exactly,
per failing position: every field extracted before the failing accessor
keeps its extracted value, while the failing field and every later one are
left absent (the omitted fields of each record literal default to `none`)
rather than populated with defaults. -/
theorem c6_amended_field_errors (b : SceneBlockAcc) (d : String) :
    ((parse_scene b d).name = some b.name ∧
     ((parse_scene b d).parse_error = none ↔ accessorsOk b = true) ∧
     ((parse_scene b d).parse_error = none →
       (parse_scene b d).frame_start.isSome ∧
       (parse_scene b d).frame_end.isSome ∧
       (parse_scene b d).frame_step.isSome ∧
       (parse_scene b d).output_path.isSome ∧
       (parse_scene b d).view_layers.isSome ∧
       (parse_scene b d).render_engine.isSome ∧
       (parse_scene b d).use_nodes.isSome ∧
       (parse_scene b d).resolution_x.isSome ∧
       (parse_scene b d).resolution_y.isSome ∧
       (parse_scene b d).output_format.isSome) ∧
     ((parse_scene b d).parse_error.isSome →
       (parse_scene b d).output_format = none)) ∧
    (∀ e, b.sfra = Except.error e →
      parse_scene b d = { name := some b.name, parse_error := some e }) ∧
    (∀ fs e, b.sfra = Except.ok fs → b.efra = Except.error e →
      parse_scene b d =
        { name := some b.name, frame_start := some fs
          parse_error := some e }) ∧
    (∀ fs fe e, b.sfra = Except.ok fs → b.efra = Except.ok fe →
      b.frame_step = Except.error e →
      parse_scene b d =
        { name := some b.name, frame_start := some fs, frame_end := some fe
          parse_error := some e }) ∧
    (∀ fs fe st e, b.sfra = Except.ok fs → b.efra = Except.ok fe →
      b.frame_step = Except.ok st → b.pic = Except.error e →
      parse_scene b d =
        { name := some b.name, frame_start := some fs, frame_end := some fe
          frame_step := some st, parse_error := some e }) ∧
    (∀ fs fe st p e, b.sfra = Except.ok fs → b.efra = Except.ok fe →
      b.frame_step = Except.ok st → b.pic = Except.ok p →
      b.engine = Except.error e →
      parse_scene b d =
        { name := some b.name, frame_start := some fs, frame_end := some fe
          frame_step := some st
          output_path := some (resolve_output_path p d)
          view_layers := some b.view_layers, parse_error := some e }) ∧
    (∀ fs fe st p eng e, b.sfra = Except.ok fs → b.efra = Except.ok fe →
      b.frame_step = Except.ok st → b.pic = Except.ok p →
      b.engine = Except.ok eng → b.use_nodes = Except.error e →
      parse_scene b d =
        { name := some b.name, frame_start := some fs, frame_end := some fe
          frame_step := some st
          output_path := some (resolve_output_path p d)
          view_layers := some b.view_layers
          render_engine := some (if eng = "" then "BLENDER_EEVEE" else eng)
          parse_error := some e }) ∧
    (∀ fs fe st p eng un e, b.sfra = Except.ok fs → b.efra = Except.ok fe →
      b.frame_step = Except.ok st → b.pic = Except.ok p →
      b.engine = Except.ok eng → b.use_nodes = Except.ok un →
      b.xsch = Except.error e →
      parse_scene b d =
        { name := some b.name, frame_start := some fs, frame_end := some fe
          frame_step := some st
          output_path := some (resolve_output_path p d)
          view_layers := some b.view_layers
          render_engine := some (if eng = "" then "BLENDER_EEVEE" else eng)
          use_nodes := some (decide (un ≠ 0)), parse_error := some e }) ∧
    (∀ fs fe st p eng un rx e, b.sfra = Except.ok fs → b.efra = Except.ok fe →
      b.frame_step = Except.ok st → b.pic = Except.ok p →
      b.engine = Except.ok eng → b.use_nodes = Except.ok un →
      b.xsch = Except.ok rx → b.ysch = Except.error e →
      parse_scene b d =
        { name := some b.name, frame_start := some fs, frame_end := some fe
          frame_step := some st
          output_path := some (resolve_output_path p d)
          view_layers := some b.view_layers
          render_engine := some (if eng = "" then "BLENDER_EEVEE" else eng)
          use_nodes := some (decide (un ≠ 0)), resolution_x := some rx
          parse_error := some e }) ∧
    (∀ fs fe st p eng un rx ry e, b.sfra = Except.ok fs →
      b.efra = Except.ok fe → b.frame_step = Except.ok st →
      b.pic = Except.ok p → b.engine = Except.ok eng →
      b.use_nodes = Except.ok un → b.xsch = Except.ok rx →
      b.ysch = Except.ok ry → b.imtype = Except.error e →
      parse_scene b d =
        { name := some b.name, frame_start := some fs, frame_end := some fe
          frame_step := some st
          output_path := some (resolve_output_path p d)
          view_layers := some b.view_layers
          render_engine := some (if eng = "" then "BLENDER_EEVEE" else eng)
          use_nodes := some (decide (un ≠ 0)), resolution_x := some rx
          resolution_y := some ry, parse_error := some e }) := by
  refine ⟨parse_scene_basic b d, ?_, ?_, ?_, ?_, ?_, ?_, ?_, ?_, ?_⟩
  · intro e h1
    simp [parse_scene, h1]
  · intro fs e h1 h2
    simp [parse_scene, h1, h2]
  · intro fs fe e h1 h2 h3
    simp [parse_scene, h1, h2, h3]
  · intro fs fe st e h1 h2 h3 h4
    simp [parse_scene, h1, h2, h3, h4]
  · intro fs fe st p e h1 h2 h3 h4 h5
    simp [parse_scene, h1, h2, h3, h4, h5]
  · intro fs fe st p eng e h1 h2 h3 h4 h5 h6
    simp [parse_scene, h1, h2, h3, h4, h5, h6]
  · intro fs fe st p eng un e h1 h2 h3 h4 h5 h6 h7
    simp [parse_scene, h1, h2, h3, h4, h5, h6, h7]
  · intro fs fe st p eng un rx e h1 h2 h3 h4 h5 h6 h7 h8
    simp [parse_scene, h1, h2, h3, h4, h5, h6, h7, h8]
  · intro fs fe st p eng un rx ry e h1 h2 h3 h4 h5 h6 h7 h8 h9
    simp [parse_scene, h1, h2, h3, h4, h5, h6, h7, h8, h9]

/-- The final path component (after the last `/`), for POSIX-style absolute
paths as produced by `Path(filepath).resolve()`. -/
def basename (p : String) : String :=
  ⟨(p.data.reverse.takeWhile (fun c => c ≠ '/')).reverse⟩

/-- `Path(...).parent` for POSIX-style absolute paths: everything before the
last `/` (CPython keeps the root slash; paths reaching `parse_blend` are
resolved absolute file paths, so the last `/` is never the root slash). -/
def dirname (p : String) : String :=
  ⟨((p.data.reverse.dropWhile (fun c => c ≠ '/')).drop 1).reverse⟩

/-- `Path(...).stem` (CPython): the final component without its last suffix;
a dot at position 0 or a trailing dot does not start a suffix. -/
def stem (p : String) : String :=
  let nm := basename p
  let cs := nm.data
  match (cs.reverse.findIdx? (fun c => c = '.')).map
      (fun j => cs.length - 1 - j) with
  | some i => if 0 < i ∧ i < cs.length - 1 then ⟨cs.take i⟩ else nm
  | none => nm

/-- Left-to-right removal of every (non-overlapping) occurrence of the fixed
pattern `".blend"`, i.e. Python `s.replace(".blend", "")`; the first argument
is recursion fuel, instantiated with the string length. -/
def removeBlendAux : Nat → List Char → List Char
  | 0, cs => cs
  | _ + 1, [] => []
  | fuel + 1, c :: rest =>
    if (".blend".data).isPrefixOf (c :: rest) then
      removeBlendAux fuel ((c :: rest).drop 6)
    else c :: removeBlendAux fuel rest

/-- `stem.replace(".blend", "")` over a whole string. -/
def removeBlend (s : String) : String := ⟨removeBlendAux s.data.length s.data⟩

/-- What `parse_blend` reads from an opened blend file: the scene blocks in
block-table order, the result of `get_active_scene_name` (`none` when any
link of the window-manager chain is missing or raises), and the header
version int (`none` when reading it raises). -/
structure BlendFileAcc where
  scene_blocks : List SceneBlockAcc
  active_scene_name : Option String
  header_version : Option Int

/-- The metadata dict returned by `parse_blend` (blend_parser.py);
`active_scene` and `blender_version` are optional keys. -/
structure FileMetadata where
  file : String
  job_name : String
  scenes : List SceneData
  active_scene : Option String
  blender_version : Option String

/-- Embedding of `parse_blend(filepath)` (blend_parser.py) over the resolved
absolute file path and the opened file's accessor results: scenes are parsed
in block order against the blend file's directory; `active_scene` is added
whenever `get_active_scene_name` returned a truthy (non-empty) string;
`blender_version` is `f"{version//100}.{version%100}"` when the header
version was readable. -/
def parse_blend (filepath : String) (blend : BlendFileAcc) : FileMetadata :=
  { file := filepath
    job_name := removeBlend (stem filepath)
    scenes := blend.scene_blocks.map (fun b => parse_scene b (dirname filepath))
    active_scene :=
      match blend.active_scene_name with
      | some n => if n = "" then none else some n
      | none => none
    blender_version :=
      blend.header_version.map
        (fun v => toString (v.fdiv 100) ++ "." ++ toString (v.fmod 100)) }

/-- A scene block named `"Bar"` whose every accessor succeeds. -/
def c9Block : SceneBlockAcc :=
  { name := "Bar", sfra := .ok 1, efra := .ok 250, frame_step := .ok 1
    pic := .ok "//out", view_layers := ["View Layer"], engine := .ok "CYCLES"
    use_nodes := .ok 0, xsch := .ok 1920, ysch := .ok 1080, imtype := .ok 14 }

/-- A blend file whose window-manager chain names `"Foo"` as active although
the only scene block is named `"Bar"`. -/
def c9Blend : BlendFileAcc :=
  { scene_blocks := [c9Block], active_scene_name := some "Foo"
    header_version := some 420 }

/-- C9 counterexample: `parse_blend` reports an active-scene name that
matches no scene in the result — the name is NOT ignored when it fails to
match. -/
theorem c9_counterexample :
    (parse_blend "/proj/shot.blend" c9Blend).active_scene = some "Foo" ∧
    (parse_blend "/proj/shot.blend" c9Blend).scenes.map SceneData.name
        = [some "Bar"] ∧
    some "Bar" ≠ some ("Foo" : String) := by
  refine ⟨rfl, rfl, by decide⟩

/-- C9 (amended): the `active_scene` of the result is determined by the
window-manager chain alone — it never consults the scene list (replacing the
scene blocks leaves it unchanged); it equals any non-empty detected name and
is omitted exactly when detection failed or yielded the empty string. -/
theorem c9_amended_active_scene (fp : String) (blend : BlendFileAcc)
    (other_blocks : List SceneBlockAcc) :
    ((parse_blend fp blend).active_scene
        = (parse_blend fp { blend with scene_blocks := other_blocks }).active_scene) ∧
    (∀ n, blend.active_scene_name = some n → n ≠ "" →
      (parse_blend fp blend).active_scene = some n) ∧
    (blend.active_scene_name = none →
      (parse_blend fp blend).active_scene = none) := by
  refine ⟨rfl, ?_, ?_⟩
  · intro n hn hne
    simp [parse_blend, hn, hne]
  · intro hn
    simp [parse_blend, hn]

/-- Witness for C9 (amended): at the concrete mismatching blend file the
detected name `"Foo"` is reported as is. -/
theorem c9_witness :
    (parse_blend "/proj/shot.blend" c9Blend).active_scene = some "Foo" :=
  (c9_amended_active_scene "/proj/shot.blend" c9Blend []).2.1 "Foo" rfl
    (by decide)

/-- A scene block whose `engine` read raises while every earlier and later
accessor succeeds. -/
def c6EngineBlock : SceneBlockAcc :=
  { name := "S", sfra := .ok 1, efra := .ok 250, frame_step := .ok 1
    pic := .ok "//out", view_layers := ["View Layer"]
    engine := .error "bad engine"
    use_nodes := .ok 1, xsch := .ok 1920, ysch := .ok 1080, imtype := .ok 99 }

/-- Witness for C6 (amended), at a block whose `engine` read raises: the
error is recorded, every field extracted before `engine` keeps its value,
and `render_engine` and every later field are absent. -/
theorem c6_witness :
    parse_scene c6EngineBlock "/proj" =
      { name := some "S", frame_start := some 1, frame_end := some 250
        frame_step := some 1
        output_path := some (resolve_output_path "//out" "/proj")
        view_layers := some ["View Layer"]
        parse_error := some "bad engine" } :=
  (c6_amended_field_errors c6EngineBlock "/proj").2.2.2.2.2.1
    1 250 1 "//out" "bad engine" rfl rfl rfl rfl rfl

end BlendParser

/-- Python slicing `s[:n]` over the character list. -/
def strTake (s : String) (n : Nat) : String := ⟨s.data.take n⟩

namespace Inspector

/-- What one fallback `subprocess.run` attempt would yield for a file
(desktop_app.py, `InspectorThread.run`): the executable is missing
(`FileNotFoundError`), the 120 s timeout expires, the process completes
(with the marked `BLEND_INSPECTOR_JSON:` metadata line found in stdout, or
not, alongside its stderr), or some other exception is raised. -/
inductive FallbackOutcome (α : Type) where
  | notFound
  | timeout
  | completed (metadata : Option α) (stderr : String)
  | raised (msg : String)

/-- One file of a batch together with the outcomes its two extraction tiers
would produce: `binary_available` is `blend_parser.is_available()`,
`binary_result` the outcome `parse_blend` would give, `fallback` the outcome
a host-process launch would give. -/
structure FileJob (α : Type) where
  filepath : String
  binary_available : Bool
  binary_result : Except String α
  fallback : FallbackOutcome α

/-- Observable actions of `InspectorThread.run`: a `file_inspected` emission
(metadata or an `{"error": …}` dict), an attempted `subprocess.run` launch,
and the final `all_done` emission. -/
inductive Event (α : Type) where
  | inspected (filepath : String) (result : Except String α)
  | launched (filepath : String)
  | allDone

/-- The fallback tier for one file (desktop_app.py, `InspectorThread.run`):
with `blender_missing` already set the file is reported "Blender not found"
without a launch; otherwise a launch is attempted and its outcome reported,
`FileNotFoundError` additionally setting `blender_missing`. -/
def fallbackStep {α : Type} (blender_path : String) (f : FileJob α)
    (blender_missing : Bool) : List (Event α) × Bool :=
  if blender_missing then
    ([.inspected f.filepath (.error ("Blender not found: " ++ blender_path))],
     blender_missing)
  else
    match f.fallback with
    | .notFound =>
        ([.launched f.filepath,
          .inspected f.filepath
            (.error ("Blender not found: " ++ blender_path))], true)
    | .timeout =>
        ([.launched f.filepath,
          .inspected f.filepath (.error "Timeout (120s)")], blender_missing)
    | .completed md st =>
        ([.launched f.filepath,
          .inspected f.filepath
            (match md with
             | some m => .ok m
             | none => .error ("No metadata found. " ++ strTake st 200))],
         blender_missing)
    | .raised msg =>
        ([.launched f.filepath, .inspected f.filepath (.error msg)],
         blender_missing)

/-- One file's processing (the body of the `for filepath in self.files` loop):
a successful binary parse emits the metadata and continues; a failed or
unavailable binary tier falls through to `fallbackStep` (the
`print("Binary parse failed …")` is console noise, not a signal). -/
def processFile {α : Type} (blender_path : String) (f : FileJob α)
    (blender_missing : Bool) : List (Event α) × Bool :=
  if f.binary_available then
    match f.binary_result with
    | .ok md => ([.inspected f.filepath (.ok md)], blender_missing)
    | .error _ => fallbackStep blender_path f blender_missing
  else fallbackStep blender_path f blender_missing

/-- The batch loop of `InspectorThread.run`: `stopAt i` is the value of the
cooperative `self._stop` flag as read at the top of iteration `i`; a set flag
breaks out before starting the file. -/
def runFiles {α : Type} (blender_path : String) (stopAt : Nat → Bool) :
    Nat → Bool → List (FileJob α) → List (Event α)
  | _, _, [] => []
  | i, bm, f :: rest =>
    if stopAt i then []
    else
      (processFile blender_path f bm).1 ++
        runFiles blender_path stopAt (i + 1)
          (processFile blender_path f bm).2 rest

/-- `InspectorThread.run`: the loop over the batch, then `all_done.emit()`. -/
def run {α : Type} (blender_path : String) (stopAt : Nat → Bool)
    (files : List (FileJob α)) : List (Event α) :=
  runFiles blender_path stopAt 0 false files ++ [.allDone]

/-- With the missing-host flag set, a file contributes no launch, and the
flag stays set. -/
theorem processFile_flag_set {α : Type} (bp : String) (f : FileJob α) :
    (∀ p, Event.launched p ∉ (processFile bp f true).1) ∧
    (processFile bp f true).2 = true := by
  have hfb : fallbackStep bp f true =
      ([Event.inspected f.filepath
          (.error ("Blender not found: " ++ bp))], true) := rfl
  by_cases hav : f.binary_available
  · cases hr : f.binary_result with
    | ok md =>
      constructor
      · intro p hp
        simp [processFile, hav, hr] at hp
      · simp [processFile, hav, hr]
    | error e =>
      constructor
      · intro p hp
        simp [processFile, hav, hr, hfb] at hp
      · simp [processFile, hav, hr, hfb]
  · constructor
    · intro p hp
      simp [processFile, hav, hfb] at hp
    · simp [processFile, hav, hfb]

/-- C7: once the host executable has been found missing, the rest of the
batch never attempts another process launch; a `FileNotFoundError` outcome is
what sets that batch-wide flag; and under the flag every file whose binary
extraction does not succeed is reported with the "Blender not found" error
(and nothing else). -/
theorem c7_host_missing_short_circuit {α : Type} (bp : String)
    (stopAt : Nat → Bool) (i : Nat) (files : List (FileJob α)) :
    (∀ p, Event.launched p ∉ runFiles bp stopAt i true files) ∧
    (∀ f : FileJob α, f.fallback = FallbackOutcome.notFound →
      (fallbackStep bp f false).2 = true) ∧
    (∀ f : FileJob α,
      (f.binary_available = false ∨ ∃ e, f.binary_result = Except.error e) →
      processFile bp f true =
        ([Event.inspected f.filepath
            (.error ("Blender not found: " ++ bp))], true)) := by
  refine ⟨?_, ?_, ?_⟩
  · induction files generalizing i with
    | nil => intro p hp; simp [runFiles] at hp
    | cons f rest ih =>
      intro p hp
      by_cases hs : stopAt i
      · simp [runFiles, hs] at hp
      · simp only [runFiles, if_neg hs, List.mem_append] at hp
        rcases hp with hp | hp
        · exact (processFile_flag_set bp f).1 p hp
        · rw [(processFile_flag_set bp f).2] at hp
          exact ih (i + 1) p hp
  · intro f hf
    simp [fallbackStep, hf]
  · intro f hf
    have hfb : fallbackStep bp f true =
        ([Event.inspected f.filepath
            (.error ("Blender not found: " ++ bp))], true) := rfl
    rcases hf with hf | ⟨e, hf⟩
    · simp [processFile, hf, hfb]
    · by_cases hav : f.binary_available
      · simp [processFile, hav, hf, hfb]
      · simp [processFile, hav, hfb]

/-- The 3-file batch of the C7 example: file 1 parses binarily, file 2's
binary parse fails and its launch hits a missing executable, file 3's binary
parse fails while a launch would have succeeded. -/
def exampleBatch : List (FileJob Unit) :=
  [{ filepath := "a.blend", binary_available := true
     binary_result := .ok (), fallback := .completed (some ()) "" },
   { filepath := "b.blend", binary_available := true
     binary_result := .error "invalid header", fallback := .notFound },
   { filepath := "c.blend", binary_available := true
     binary_result := .error "invalid header"
     fallback := .completed (some ()) "" }]

/-- Witness for C7: in the 3-file batch, files 2 and 3 both report "Blender
not found" and only file 2's launch is ever attempted — the trace contains no
launch for file 3. -/
theorem c7_witness :
    run "/opt/blender" (fun _ => false) exampleBatch =
      [Event.inspected "a.blend" (.ok ()),
       Event.launched "b.blend",
       Event.inspected "b.blend" (.error "Blender not found: /opt/blender"),
       Event.inspected "c.blend" (.error "Blender not found: /opt/blender"),
       Event.allDone] ∧
    processFile "/opt/blender" (exampleBatch.get ⟨2, by decide⟩) true =
      ([Event.inspected "c.blend"
          (.error "Blender not found: /opt/blender")], true) :=
  ⟨rfl,
   (c7_host_missing_short_circuit "/opt/blender" (fun _ => false) 0
      ([] : List (FileJob Unit))).2.2 _ (Or.inr ⟨"invalid header", rfl⟩)⟩

/-- Number of `all_done` emissions in a trace. -/
def countAllDone {α : Type} (es : List (Event α)) : Nat :=
  es.countP (fun e => match e with
    | Event.allDone => true
    | _ => false)

/-- The fallback tier emits no completion signal. -/
theorem countAllDone_fallbackStep {α : Type} (bp : String) (f : FileJob α)
    (bm : Bool) : countAllDone (fallbackStep bp f bm).1 = 0 := by
  by_cases hbm : bm = true
  · subst hbm; rfl
  · simp only [Bool.not_eq_true] at hbm
    subst hbm
    cases hfb : f.fallback <;> simp [fallbackStep, hfb, countAllDone]

/-- Per-file event groups contain no completion signal. -/
theorem countAllDone_processFile {α : Type} (bp : String) (f : FileJob α)
    (bm : Bool) : countAllDone (processFile bp f bm).1 = 0 := by
  by_cases hav : f.binary_available
  · cases hr : f.binary_result with
    | ok md => simp [processFile, hav, hr, countAllDone]
    | error e =>
      simp only [processFile, hav, if_true, hr]
      exact countAllDone_fallbackStep bp f bm
  · unfold processFile
    rw [if_neg hav]
    exact countAllDone_fallbackStep bp f bm

/-- The batch loop itself emits no completion signal. -/
theorem countAllDone_runFiles {α : Type} (bp : String) (stopAt : Nat → Bool)
    (files : List (FileJob α)) : ∀ (i : Nat) (bm : Bool),
    countAllDone (runFiles bp stopAt i bm files) = 0 := by
  induction files with
  | nil => intro i bm; rfl
  | cons f rest ih =>
    intro i bm
    by_cases hs : stopAt i
    · simp [runFiles, hs, countAllDone]
    · simp only [runFiles, if_neg hs, countAllDone, List.countP_append]
      have h1 := countAllDone_processFile bp f bm
      have h2 := ih (i + 1) (processFile bp f bm).2
      simp only [countAllDone] at h1 h2
      omega

/-- C8: the cancellation flag is consulted only between files — a started
file always contributes its complete per-file event group, whatever the flag
does afterwards; once the flag is observed set, no further file of the batch
is started; and the terminal completion signal fires exactly once whether or
not cancellation occurred. -/
theorem c8_cooperative_cancellation {α : Type} (bp : String)
    (stopAt : Nat → Bool) (i : Nat) (bm : Bool) (files : List (FileJob α))
    (f : FileJob α) (rest : List (FileJob α)) :
    countAllDone (run bp stopAt files) = 1 ∧
    (stopAt i = true → runFiles bp stopAt i bm files = []) ∧
    (runFiles bp stopAt i bm (f :: rest) = [] ∨
      runFiles bp stopAt i bm (f :: rest) =
        (processFile bp f bm).1 ++
          runFiles bp stopAt (i + 1) (processFile bp f bm).2 rest) := by
  refine ⟨?_, ?_, ?_⟩
  · simp only [run, countAllDone, List.countP_append]
    have h := countAllDone_runFiles bp stopAt files 0 false
    simp only [countAllDone] at h
    simp [h, List.countP_cons]
  · intro hs
    cases files with
    | nil => rfl
    | cons g grest => simp [runFiles, hs]
  · by_cases hs : stopAt i
    · exact Or.inl (by simp [runFiles, hs])
    · exact Or.inr (by simp [runFiles, hs])

/-- Witness for C8, on the concrete 3-file batch with a flag raised after the
first file: the completion signal still fires exactly once and no file from
index 1 on is started. -/
theorem c8_witness :
    countAllDone (run "/opt/blender" (fun j => decide (1 ≤ j)) exampleBatch)
        = 1 ∧
    runFiles "/opt/blender" (fun j => decide (1 ≤ j)) 1 false
        (exampleBatch.drop 1) = [] := by
  have h := c8_cooperative_cancellation "/opt/blender"
    (fun j => decide (1 ≤ j)) 1 false (exampleBatch.drop 1)
    (exampleBatch.get ⟨0, by decide⟩) []
  exact ⟨h.1, h.2.1 (by decide)⟩

end Inspector

/-- Python substring containment `pat in s` over the character list. -/
def strContains (s pat : String) : Bool :=
  s.data.tails.any (fun t => pat.data.isPrefixOf t)

/-- Python `s.find(c, start)`: index of the first occurrence of `c` at or
after `start`, `-1` when absent. -/
def pyFind (s : String) (c : Char) (start : Nat) : Int :=
  match (s.data.drop start).findIdx? (fun x => x = c) with
  | some j => ((start + j : Nat) : Int)
  | none => -1

/-- Python slicing `s[a:b]` for `0 ≤ a ≤ b`. -/
def pySlice (s : String) (a b : Nat) : String := ⟨(s.data.drop a).take (b - a)⟩

/-- Python `str.lower()` over the character list. -/
def strLower (s : String) : String := ⟨s.data.map Char.toLower⟩

namespace Backend

/-- One in-memory log entry as built by `Backend.add_log` (backend.py); the
timestamp (`datetime.now()`) and the packaged/generated script-source label
are environment inputs and enter as fields. -/
structure LogEntry where
  log_type : String
  message : String
  timestamp : String
  script_source : String
deriving DecidableEq

/-- Python `list[-n:]`: the last `n` elements (all of them when fewer). -/
def takeLast {β : Type} (n : Nat) (l : List β) : List β :=
  l.drop (l.length - n)

/-- Embedding of `Backend.add_log` (backend.py): append the new entry, then
`self.logs = self.logs[-200:]`. The side-effecting `_persist_logs()` call is
file I/O and outside the in-memory list this models. -/
def add_log (logs : List LogEntry) (entry : LogEntry) : List LogEntry :=
  takeLast 200 (logs ++ [entry])

/-- One entry parsed back from `logs/temp_logs.txt`
(`Backend._load_persistent_logs` builds dicts with exactly these keys). -/
structure LoadedLog where
  timestamp : String
  log_type : String
  message : String
deriving DecidableEq

/-- One line of the persisted log parsed as in `_load_persistent_logs`
(backend.py): the line must start with `[` and contain `": "`; then
`ts_end = line.find("]")`, `type_start = ts_end + 2`,
`type_end = line.find(":", type_start)`, and the entry is kept only when
`ts_end > 0 and type_end > type_start`. -/
def parse_log_line (line : String) : Option LoadedLog :=
  if strHasPrefix line "[" && strContains line ": " then
    let ts_end : Int := pyFind line ']' 0
    let type_start : Int := ts_end + 2
    let type_end : Int := pyFind line ':' type_start.toNat
    if ts_end > 0 && type_end > type_start then
      some { timestamp := pySlice line 1 ts_end.toNat
             log_type := strLower (strStrip (pySlice line type_start.toNat type_end.toNat))
             message := strStrip (strDrop line (type_end.toNat + 2)) }
    else none
  else none

/-- Embedding of `Backend._load_persistent_logs` (backend.py) over the lines
of `logs/temp_logs.txt` (an unreadable/absent file is the empty line list):
parse each line, keep the parsed ones, return `logs[-200:]`. -/
def _load_persistent_logs (lines : List String) : List LoadedLog :=
  takeLast 200 (lines.filterMap parse_log_line)

/-- `takeLast` keeps at most `n` elements, exactly `n` when enough are
there, and what it keeps is a suffix (the most recent entries, in order). -/
theorem takeLast_spec {β : Type} (n : Nat) (l : List β) :
    (takeLast n l).length = min n l.length ∧ takeLast n l <:+ l := by
  constructor
  · simp only [takeLast, List.length_drop]
    omega
  · exact List.drop_suffix _ _

/-- C10: the in-memory log list holds at most 200 entries after every
`add_log` — exactly the most recent ones, in order (a suffix of the appended
list, all of it while under the cap) — and loading persisted logs likewise
returns at most the last 200 parsed entries. -/
theorem c10_log_list_bounded (logs : List Backend.LogEntry)
    (entry : Backend.LogEntry) (lines : List String) :
    (add_log logs entry).length = min (logs.length + 1) 200 ∧
    (add_log logs entry).length ≤ 200 ∧
    add_log logs entry <:+ logs ++ [entry] ∧
    (logs.length < 200 → add_log logs entry = logs ++ [entry]) ∧
    (_load_persistent_logs lines).length ≤ 200 ∧
    _load_persistent_logs lines <:+ lines.filterMap parse_log_line := by
  have h1 := takeLast_spec 200 (logs ++ [entry])
  have h2 := takeLast_spec 200 (lines.filterMap parse_log_line)
  refine ⟨?_, ?_, h1.2, ?_, ?_, h2.2⟩
  · rw [show add_log logs entry = takeLast 200 (logs ++ [entry]) from rfl,
      h1.1]
    simp [Nat.min_comm]
  · rw [show add_log logs entry = takeLast 200 (logs ++ [entry]) from rfl,
      h1.1]
    exact Nat.min_le_left _ _
  · intro hlt
    simp only [add_log, takeLast, List.length_append, List.length_singleton]
    rw [show logs.length + 1 - 200 = 0 by omega, List.drop_zero]
  · rw [show _load_persistent_logs lines
        = takeLast 200 (lines.filterMap parse_log_line) from rfl, h2.1]
    simp

/-- A concrete log entry for the C10 witness. -/
def sampleEntry : Backend.LogEntry :=
  { log_type := "info", message := "scan complete"
    timestamp := "12:00:00", script_source := "packaged" }

/-- Witness for C10: adding to an empty list keeps the single entry, and
loading a single well-formed persisted line yields at most 200 entries. -/
theorem c10_witness :
    add_log [] sampleEntry = [sampleEntry] ∧
    (_load_persistent_logs ["[12:00:00] INFO: scan complete"]).length ≤ 200 :=
  ⟨(c10_log_list_bounded [] sampleEntry []).2.2.2.1 (by decide),
   (c10_log_list_bounded [] sampleEntry
      ["[12:00:00] INFO: scan complete"]).2.2.2.2.1⟩

end Backend
